import Mathlib

/-!
Verification of the I2V stitcher backend (`backend/app.py`).

The development shallowly embeds the provider-orchestration core of the
service: the result normalizer `_find_any_video_url`, the poller
`_poll_higgs_any` (modelled as a fuel-bounded loop over an environment of
HTTP responses), the parameter normalizer `_normalize_params`, the submit
payload builder, and the control flow of the `generate_video` endpoint
(modelled as a function over an abstract effect environment which records a
trace of observable events: workspace creation, submissions, polls,
downloads, encoder invocations, cleanup, and the response).

JSON values are modelled by the inductive `Json`; Python truthiness,
`dict.get`, string lowering and the `or` chains are translated directly
from the source.  Python exceptions that are not `HTTPException`
(`TypeError` on `.lower()` of a non-string, `AttributeError` on `.get` of a
non-dict) are modelled by `PyErr` and propagate to the endpoint's generic
`except Exception` handler, as in the source.
-/

/-- JSON values, as produced by `response.json()` in the source. -/
inductive Json where
  | null
  | bool (b : Bool)
  | num (n : Int)
  | str (s : String)
  | arr (elems : List Json)
  | obj (fields : List (String × Json))

/-- Association lookup on object fields: Python `dict` access (keys unique,
insertion order preserved). -/
def lookupField : List (String × Json) → String → Option Json
  | [], _ => none
  | (k, v) :: fs, key => if k = key then some v else lookupField fs key

/-- `data.get(key)` on a JSON value: `none` when the key is missing (callers
only apply this to dicts, as the source functions take `dict` arguments). -/
def getKey : Json → String → Option Json
  | .obj fs, k => lookupField fs k
  | _, _ => none

/-- `data.get(key)` with Python `None` (`Json.null`) for a missing key. -/
def getD (d : Json) (k : String) : Json := (getKey d k).getD .null

/-- Python truthiness of a JSON value: `None`, `False`, `0`, `""`, `[]` and
an empty dict are falsy, everything else truthy. -/
def truthy : Json → Bool
  | .null => false
  | .bool b => b
  | .num n => !(n == 0)
  | .str s => !(s == "")
  | .arr xs => !xs.isEmpty
  | .obj fs => !fs.isEmpty

/-- `isinstance(x, str)` guard followed by use of the string. -/
def asStr : Option Json → Option String
  | some (.str s) => some s
  | _ => none

/-- Python `x or y` specialised to JSON values. -/
def pyOrJson (a b : Json) : Json := if truthy a then a else b

/-- Equality of a candidate leading segment with the start of a list. -/
def leadingEq : List Char → List Char → Bool
  | [], _ => true
  | _ :: _, [] => false
  | a :: as, b :: bs => a == b && leadingEq as bs

/-- Containment of a pattern anywhere in a character list. -/
def hasSub (pat : List Char) : List Char → Bool
  | [] => pat.isEmpty
  | c :: cs => leadingEq pat (c :: cs) || hasSub pat cs

/-- `".mp4" in x` for Python strings. -/
def containsMp4 (s : String) : Bool := hasSub ['.', 'm', 'p', '4'] s.data

/-- Python `.lower()` (statuses are ASCII), character by character. -/
def pyLower (s : String) : String := ⟨s.data.map Char.toLower⟩

mutual
/-- Rendering of a JSON value to text, standing in for Python
`f"{data}"` / `json.dumps(data)` interpolation in error details. -/
def renderJson : Json → String
  | .null => "None"
  | .bool true => "True"
  | .bool false => "False"
  | .num n => toString n
  | .str s => "\"" ++ s ++ "\""
  | .arr xs => "[" ++ renderArr xs ++ "]"
  | .obj fs => "\x7b" ++ renderObj fs ++ "\x7d"

/-- Renders array elements, comma separated. -/
def renderArr : List Json → String
  | [] => ""
  | [x] => renderJson x
  | x :: y :: xs => renderJson x ++ ", " ++ renderArr (y :: xs)

/-- Renders object fields, comma separated. -/
def renderObj : List (String × Json) → String
  | [] => ""
  | [(k, v)] => "\"" ++ k ++ "\": " ++ renderJson v
  | (k, v) :: f :: fs => "\"" ++ k ++ "\": " ++ renderJson v ++ ", " ++ renderObj (f :: fs)
end

/-- The `outputs` scan of `_find_any_video_url` (`app.py` lines 151-156):
first entry that is a dict carrying a string `url`; the `type` field is
never consulted. -/
def firstOutputsUrl : List Json → Option String
  | [] => none
  | .obj fs :: rest =>
    (match lookupField fs "url" with
     | some (.str u) => some u
     | _ => firstOutputsUrl rest)
  | _ :: rest => firstOutputsUrl rest

/-- The scan over `res.values()` in the jobs branch of
`_find_any_video_url`: first value that is a dict with a string `url`. -/
def firstResultsUrl : List (String × Json) → Option String
  | [] => none
  | (_, .obj vf) :: rest =>
    (match lookupField vf "url" with
     | some (.str u) => some u
     | _ => firstResultsUrl rest)
  | _ :: rest => firstResultsUrl rest

/-- The `jobs -> results -> url` scan of `_find_any_video_url`
(`app.py` lines 158-166). -/
def firstJobsUrl : List Json → Option String
  | [] => none
  | j :: rest =>
    (match (match j with | .obj fs => lookupField fs "results" | _ => none) with
     | some (.obj rf) =>
       (match firstResultsUrl rf with
        | some u => some u
        | none => firstJobsUrl rest)
     | _ => firstJobsUrl rest)

mutual
/-- The recursive `_walk` fallback of `_find_any_video_url`
(`app.py` lines 168-183): depth-first search for a string containing
`.mp4`, dicts iterated over values in insertion order. -/
def walkJson : Json → Option String
  | .str s => if containsMp4 s then some s else none
  | .arr xs => walkArr xs
  | .obj fs => walkObj fs
  | .null => none
  | .bool _ => none
  | .num _ => none

/-- `_walk` over the elements of a list. -/
def walkArr : List Json → Option String
  | [] => none
  | x :: xs =>
    (match walkJson x with
     | some u => some u
     | none => walkArr xs)

/-- `_walk` over the values of a dict. -/
def walkObj : List (String × Json) → Option String
  | [] => none
  | (_, v) :: fs =>
    (match walkJson v with
     | some u => some u
     | none => walkObj fs)
end

/-- The nested-dict branch of `_find_any_video_url`: `data.get(key)` must be
a dict whose `video_url` is a string (`app.py` lines 144-149). -/
def nestedVideoUrl (data : Json) (key : String) : Option String :=
  match getKey data key with
  | some (.obj fs) => asStr (lookupField fs "video_url")
  | _ => none

/-- `_find_any_video_url(data)` (`app.py` lines 137-185): layered extraction
of a video url from heterogeneous response shapes, in source order:
top-level `video_url` / `result_url` strings, nested `result` / `output`
dicts, the `outputs` list, the `jobs`/`results` structure, then the
recursive `.mp4` scan. -/
def find_any_video_url (data : Json) : Option String :=
  match asStr (getKey data "video_url") with
  | some u => some u
  | none =>
  match asStr (getKey data "result_url") with
  | some u => some u
  | none =>
  match nestedVideoUrl data "result" with
  | some u => some u
  | none =>
  match nestedVideoUrl data "output" with
  | some u => some u
  | none =>
  match (match getKey data "outputs" with
         | some (.arr outs) => firstOutputsUrl outs
         | _ => none) with
  | some u => some u
  | none =>
  match (match getKey data "jobs" with
         | some (.arr js) => firstJobsUrl js
         | _ => none) with
  | some u => some u
  | none => walkJson data

/-- An HTTP response as seen by the poller: status code, parsed JSON body
and raw text (the text is only used in error details). -/
structure Resp where
  status_code : Nat
  body : Json
  text : String

/-- A raised `fastapi.HTTPException`: status code plus detail string. -/
structure HTTPException where
  status_code : Nat
  detail : String
deriving DecidableEq

/-- A Python exception that is not an `HTTPException`; it propagates to the
endpoint's generic `except Exception` handler. -/
inductive PyErr where
  | typeError
  | attributeError
  | genericError
deriving DecidableEq

/-- `HTTPException(502, f"Poll error: HTTP {code} — {text}")` raised on a
non-404 error status during polling (`app.py` line 203). -/
def pollHttpErrorExc (code : Nat) (text : String) : HTTPException :=
  ⟨502, "Poll error: HTTP " ++ toString code ++ " — " ++ text⟩

/-- `HTTPException(502, f"Task ready but video url missing: {data}")`
(`app.py` lines 214 and 220). -/
def readyButUrlMissingExc (data : Json) : HTTPException :=
  ⟨502, "Task ready but video url missing: " ++ renderJson data⟩

/-- `HTTPException(502, f"Generation failed: {json.dumps(data, ...)}")`
(`app.py` line 224). -/
def generationFailedExc (data : Json) : HTTPException :=
  ⟨502, "Generation failed: " ++ renderJson data⟩

/-- `HTTPException(504, "Generation timed out (task/job-set)")` raised when
the 240-iteration poll loop is exhausted (`app.py` line 228). -/
def pollTimeoutExc : HTTPException :=
  ⟨504, "Generation timed out (task/job-set)"⟩

/-- `HTTPException(502, "Poll error: unknown resource id ...")` raised when
both endpoint families answered 404 (`app.py` line 239). -/
def unknownResourceExc : HTTPException :=
  ⟨502, "Poll error: unknown resource id (neither task nor job-set)"⟩

/-- `HTTPException(500, ...)` raised by `_require_env` (`app.py` lines 64-69). -/
def missingEnvExc : HTTPException :=
  ⟨500, "Server is missing HF_API_KEY and/or HF_API_SECRET env vars."⟩

/-- `HTTPException(400, "No input images.")` (`app.py` line 367). -/
def noInputImagesExc : HTTPException :=
  ⟨400, "No input images."⟩

/-- `HTTPException(502, f"Unexpected submit result (no id): {res}")`
(`app.py` line 383). -/
def unexpectedSubmitExc (res : Json) : HTTPException :=
  ⟨502, "Unexpected submit result (no id): " ++ renderJson res⟩

/-- `status = (data.get("status") or data.get("state") or "").lower()`
(`app.py` line 206); `.lower()` on a truthy non-string raises `TypeError`. -/
def statusOf (data : Json) : Except PyErr String :=
  match pyOrJson (getD data "status") (pyOrJson (getD data "state") (.str "")) with
  | .str s => .ok (pyLower s)
  | _ => .error .typeError

/-- `(j or \x7b\x7d).get("status","").lower()` for one element of the jobs
list (`app.py` line 210): a falsy job contributes `""`; a truthy non-dict
job raises `AttributeError`; a present non-string status raises `TypeError`. -/
def jobStatus (j : Json) : Except PyErr String :=
  if truthy j then
    match j with
    | .obj fs =>
      (match lookupField fs "status" with
       | none => .ok ""
       | some (.str s) => .ok (pyLower s)
       | some _ => .error .typeError)
    | _ => .error .attributeError
  else .ok ""

/-- The full `job_statuses` list comprehension (`app.py` line 210). -/
def jobStatusList : List Json → Except PyErr (List String)
  | [] => .ok []
  | j :: rest => do
    let s ← jobStatus j
    let ss ← jobStatusList rest
    return s :: ss

/-- The status set accepted for every job of a job-set
(`app.py` line 211). -/
def jobsDoneSet : List String := ["completed", "succeeded", "finished", "done"]

/-- The top-level success status set (`app.py` line 217). -/
def successSet : List String := ["succeeded", "completed", "success", "finished", "done"]

/-- The top-level failure status set (`app.py` line 223). -/
def failSet : List String := ["failed", "error"]

/-- Outcome of handling one poll HTTP response inside `_try_poll`. -/
inductive TickResult where
  | notFound
  | ok (url : String)
  | raise (e : HTTPException)
  | pyRaise (e : PyErr)
  | sleepRetry
deriving DecidableEq

/-- The shared ready-state handling: extract a url via
`_find_any_video_url` and require it truthy, else raise the
ready-but-url-missing error (`app.py` lines 212-215 and 218-221). -/
def successCheck (data : Json) : TickResult :=
  match find_any_video_url data with
  | none => .raise (readyButUrlMissingExc data)
  | some u => if u = "" then .raise (readyButUrlMissingExc data) else .ok u

/-- The jobs branch of a poll tick (`app.py` lines 208-215): only taken when
the top-level status is empty; returns a terminal result only when the jobs
list is non-empty and every job status is in `jobsDoneSet`, otherwise falls
through (`.ok none`). -/
def jobsShortcut (data : Json) (status : String) : Except PyErr (Option TickResult) :=
  if status = "" then
    match getKey data "jobs" with
    | some (.arr js) =>
      (match jobStatusList js with
       | .error e => .error e
       | .ok sts =>
         if sts ≠ [] ∧ ∀ s ∈ sts, s ∈ jobsDoneSet then .ok (some (successCheck data))
         else .ok none)
    | _ => .ok none
  else .ok none

/-- One iteration of the `_try_poll` loop body (`app.py` lines 199-226),
given the HTTP response of this tick: 404 means wrong endpoint family,
any other `>= 400` status is a hard poll error, otherwise the body is
normalized and checked for a terminal state; a non-dict body makes the
`.get` calls raise `AttributeError`. -/
def pollTick (r : Resp) : TickResult :=
  if r.status_code = 404 then .notFound
  else if 400 ≤ r.status_code then .raise (pollHttpErrorExc r.status_code r.text)
  else
    match r.body with
    | .obj fs =>
      (match statusOf (.obj fs) with
       | .error e => .pyRaise e
       | .ok status =>
         match jobsShortcut (.obj fs) status with
         | .error e => .pyRaise e
         | .ok (some t) => t
         | .ok none =>
           if status ∈ successSet then successCheck (.obj fs)
           else if status ∈ failSet then .raise (generationFailedExc (.obj fs))
           else .sleepRetry)
    | _ => .pyRaise .attributeError

/-- Result of `_try_poll` on one endpoint family: `wrongFamily` models the
`return None` taken on a 404 response. -/
inductive FamilyResult where
  | wrongFamily
  | ok (url : String)
  | raise (e : HTTPException)
  | pyRaise (e : PyErr)
deriving DecidableEq

/-- The `for _ in range(240)` loop of `_try_poll` (`app.py` lines 198-228),
structurally bounded by the remaining fuel; the environment `env` gives the
HTTP response of the n-th GET on this family, and the returned `Nat` counts
the GETs performed.  Exhausted fuel raises the 504 timeout. -/
def tryPollAux (env : Nat → Resp) (i : Nat) : Nat → FamilyResult × Nat
  | 0 => (.raise pollTimeoutExc, 0)
  | fuel + 1 =>
    match pollTick (env i) with
    | .notFound => (.wrongFamily, 1)
    | .ok u => (.ok u, 1)
    | .raise e => (.raise e, 1)
    | .pyRaise e => (.pyRaise e, 1)
    | .sleepRetry =>
      let r := tryPollAux env (i + 1) fuel
      (r.1, r.2 + 1)

/-- `_try_poll(url_base)` with its 240-attempt budget. -/
def tryPoll (env : Nat → Resp) : FamilyResult × Nat := tryPollAux env 0 240

/-- Outcome of `_poll_higgs_any`. -/
inductive PollOutcome where
  | ok (url : String)
  | raise (e : HTTPException)
  | pyRaise (e : PyErr)
deriving DecidableEq

/-- Lifting of the second family's result: exhaustion of both families
raises the unknown-resource error (`app.py` line 239).  (`_try_poll` can
only return `None` — modelled `wrongFamily` — or a non-empty url, since an
empty url raises before being returned, so the Python truthiness check
`if vu:` coincides with this match.) -/
def famToOutcome : FamilyResult → PollOutcome
  | .wrongFamily => .raise unknownResourceExc
  | .ok u => .ok u
  | .raise e => .raise e
  | .pyRaise e => .pyRaise e

/-- `_poll_higgs_any` (`app.py` lines 188-239): poll the `tasks` family
first; on `wrongFamily` (404) fall back to the `job-sets` family.  Returns
the outcome together with the number of GETs issued to each family. -/
def poll_higgs_any (envTasks envJobSets : Nat → Resp) : PollOutcome × Nat × Nat :=
  match tryPoll envTasks with
  | (.wrongFamily, nT) =>
    let rJ := tryPoll envJobSets
    (famToOutcome rJ.1, nT, rJ.2)
  | (.ok u, nT) => (.ok u, nT, 0)
  | (.raise e, nT) => (.raise e, nT, 0)
  | (.pyRaise e, nT) => (.pyRaise e, nT, 0)

/-- Truthiness of an optional environment variable string:
`not (HF_API_KEY and HF_API_SECRET)` treats an unset variable and the empty
string alike (`app.py` lines 21-22 and 64-69). -/
def pyTruthyOpt : Option String → Bool
  | none => false
  | some s => !(s == "")

/-- `jid = res.get("task_id") or (res.get("task") or \x7b\x7d).get("id") or res.get("id")`
(`app.py` line 381); a truthy non-dict `task` value makes `.get` raise
`AttributeError`. -/
def get_jid (res : Json) : Except PyErr Json :=
  let t1 := getD res "task_id"
  if truthy t1 then .ok t1
  else
    let tk := pyOrJson (getD res "task") (.obj [])
    match tk with
    | .obj fs =>
      let t2 := (lookupField fs "id").getD .null
      if truthy t2 then .ok t2 else .ok (getD res "id")
    | _ => .error .attributeError

/-- `_normalize_params(duration, resolution)` (`app.py` lines 72-77). -/
def normalize_params (duration : Int) (resolution : String) : Int × String :=
  (if duration = 6 ∨ duration = 10 then duration else 6,
   if resolution = "512" ∨ resolution = "768" ∨ resolution = "1080" then resolution else "768")

/-- The JSON payload built by `_submit_image_url_to_higgsfield`
(`app.py` lines 265-280): parameters are passed through
`_normalize_params` before the request body is assembled. -/
def submit_payload (prompt : String) (duration : Int) (resolution : String)
    (image_url : String) : Json :=
  let d := (normalize_params duration resolution).1
  let r := (normalize_params duration resolution).2
  .obj [("params", .obj
    [("prompt", .str prompt),
     ("duration", .num d),
     ("resolution", .str r),
     ("input_image", .obj [("type", .str "image_url"), ("image_url", .str image_url)])])]

/-- Observable events of one `generate_video` request, in order of
occurrence: workspace creation, the i-th image's submission HTTP call, the
polling of the j-th job, the download of the j-th clip, the invocation of
`_concat_videos_mp4` on `n` clips, removal of the scratch workspace, and
the response leaving the endpoint. -/
inductive Ev where
  | mkWorkdir
  | submit (i : Nat)
  | poll (j : Nat)
  | download (j : Nat)
  | encode (n : Nat)
  | cleanup
  | respond
deriving DecidableEq

/-- An error escaping the `try` block of `generate_video`: either an
`HTTPException` (re-raised) or a generic Python exception (turned into a
500 JSON body). -/
inductive GenErr where
  | httpe (e : HTTPException)
  | pyExn (e : PyErr)
deriving DecidableEq

/-- The effect environment of one request: outcome of the i-th image's
submission, the poll response streams of the j-th job on each endpoint
family, the outcome of the j-th download, and whether the encoder
succeeds. -/
structure GenEnv where
  submitRes : Nat → Except HTTPException Json
  pollTasks : Nat → Nat → Resp
  pollJobSets : Nat → Nat → Resp
  downloadRes : Nat → Except HTTPException Unit
  encodeOk : Bool

/-- The submission events for images `i, i+1, ..., i+k-1`. -/
def submitEvs (i : Nat) : Nat → List Ev
  | 0 => []
  | k + 1 => .submit i :: submitEvs (i + 1) k

/-- The submission loop of `generate_video` (`app.py` lines 374-384): each
image is submitted exactly once; a failed submission or an id-less result
raises out of the loop, so later images are not submitted. -/
def submitLoop (env : GenEnv) (i : Nat) : Nat → Except GenErr Unit × List Ev
  | 0 => (.ok (), [])
  | k + 1 =>
    match env.submitRes i with
    | .error e => (.error (.httpe e), [.submit i])
    | .ok res =>
      match get_jid res with
      | .error e => (.error (.pyExn e), [.submit i])
      | .ok jid =>
        if truthy jid then
          let r := submitLoop env (i + 1) k
          (r.1, .submit i :: r.2)
        else (.error (.httpe (unexpectedSubmitExc res)), [.submit i])

/-- The poll-and-download loop of `generate_video` (`app.py` lines
386-390): jobs are polled in submission order; a poll or download failure
raises out of the loop. -/
def pollLoop (env : GenEnv) (j : Nat) : Nat → Except GenErr Unit × List Ev
  | 0 => (.ok (), [])
  | k + 1 =>
    match (poll_higgs_any (env.pollTasks j) (env.pollJobSets j)).1 with
    | .ok _u =>
      (match env.downloadRes j with
       | .error e => (.error (.httpe e), [.poll j, .download j])
       | .ok _ =>
         let r := pollLoop env (j + 1) k
         (r.1, .poll j :: .download j :: r.2))
    | .raise e => (.error (.httpe e), [.poll j])
    | .pyRaise e => (.error (.pyExn e), [.poll j])

/-- The body of the `try` block of `generate_video` (`app.py` lines
352-402) for `n` saved input images: the emptiness check, the submission
loop, the poll/download loop, and the unconditional `_concat_videos_mp4`
call producing `final.mp4` (a failing encoder raises a generic exception).
The `if not out_paths` guard at line 392 is unreachable when `n > 0` and
is subsumed by the `n = 0` check. -/
def tryBody (env : GenEnv) (n : Nat) : Except GenErr String × List Ev :=
  if n = 0 then (.error (.httpe noInputImagesExc), [])
  else
    match submitLoop env 0 n with
    | (.error e, evs) => (.error e, evs)
    | (.ok _, evs1) =>
      match pollLoop env 0 n with
      | (.error e, evs2) => (.error e, evs1 ++ evs2)
      | (.ok _, evs2) =>
        if env.encodeOk then (.ok "final.mp4", evs1 ++ evs2 ++ [.encode n])
        else (.error (.pyExn .genericError), evs1 ++ evs2 ++ [.encode n])

/-- The response of `generate_video`: the streamed final video file, an
`HTTPException` converted by the framework, or the 500 JSON error body of
the generic handler. -/
inductive Response where
  | fileResponse (path : String)
  | httpError (e : HTTPException)
  | jsonError500 (e : PyErr)
deriving DecidableEq

/-- `generate_video` (`app.py` lines 331-409): `_require_env` runs before
the workspace is created and before any network call; on success the
cleanup is scheduled as a background task, running after the response; on
either `except` branch the workspace is removed before the error response
is returned. -/
def runGen (hfApiKey hfApiSecret : Option String) (env : GenEnv) (nFiles : Nat) :
    Response × List Ev :=
  if pyTruthyOpt hfApiKey && pyTruthyOpt hfApiSecret then
    let r := tryBody env nFiles
    match r.1 with
    | .ok path => (.fileResponse path, .mkWorkdir :: r.2 ++ [.respond, .cleanup])
    | .error (.httpe e) => (.httpError e, .mkWorkdir :: r.2 ++ [.cleanup, .respond])
    | .error (.pyExn e) => (.jsonError500 e, .mkWorkdir :: r.2 ++ [.cleanup, .respond])
  else (.httpError missingEnvExc, [.respond])

/-- Recognizer for submission events, used to count submission attempts in
a trace. -/
def isSubmitEv : Ev → Bool
  | .submit _ => true
  | _ => false

/-- Recognizer for events that correspond to outbound HTTP traffic
(submissions, poll GETs, downloads). -/
def isNetworkEv : Ev → Bool
  | .submit _ => true
  | .poll _ => true
  | .download _ => true
  | _ => false

/-- Modelled from the spec: one rung outcome of the Fallback Orchestrator
ladder of section 4.4, which is absent from the source (`generate_video`
has a single fixed configuration).  A rung either succeeds with a clip url
or fails with an error. -/
inductive RungOutcome where
  | success (url : String)
  | failure (e : HTTPException)

/-- Modelled from the spec: the Fallback Orchestrator of section 4.4,
absent from the source.  Rungs are tried top to bottom; any failure
advances to the next rung; success short-circuits; if every rung fails the
last rung's error is propagated (`.error none` marks the empty ladder). -/
def spec_ladder_resolve : List RungOutcome → Except (Option HTTPException) String
  | [] => .error none
  | .success u :: _ => .ok u
  | .failure e :: rest =>
    match spec_ladder_resolve rest with
    | .ok u => .ok u
    | .error none => .error (some e)
    | .error (some e2) => .error (some e2)

/-- A pending poll response: HTTP 200 with a non-terminal status. -/
def pendResp : Resp := ⟨200, .obj [("status", .str "queued")], ""⟩

/-- A completed poll response carrying a direct `video_url`. -/
def doneResp : Resp :=
  ⟨200, .obj [("status", .str "completed"), ("video_url", .str "http://x/v.mp4")], ""⟩

/-- A tasks-family response stream that answers 200/pending on the first
GET and 404 from the second GET on. -/
def envT2 : Nat → Resp := fun n => if n = 0 then pendResp else ⟨404, .null, ""⟩

/-- A job-sets-family response stream that answers completed immediately. -/
def envJ2 : Nat → Resp := fun _ => doneResp

/-- A response stream that stays pending forever. -/
def envPend : Nat → Resp := fun _ => pendResp

/-- An `outputs` list whose first entry is an image and whose second entry
is the video, both with string urls. -/
def c3data : Json :=
  .obj [("outputs", .arr
    [.obj [("url", .str "http://x/a.jpg"), ("type", .str "image")],
     .obj [("url", .str "http://x/b.mp4"), ("type", .str "video")]])]

/-- A job-set body with no top-level status whose single job failed. -/
def c4data : Json := .obj [("jobs", .arr [.obj [("status", .str "failed")]])]

/-- A succeeded body that carries no video url anywhere. -/
def c6fields : List (String × Json) := [("status", .str "succeeded")]

/-- A submission error as surfaced by `_submit_image_url_to_higgsfield`. -/
def cSubmitErr : HTTPException := ⟨502, "Submit error: HTTP 500 — boom"⟩

/-- An effect environment whose every submission fails. -/
def envC1fail : GenEnv :=
  { submitRes := fun _ => .error cSubmitErr
    pollTasks := fun _ _ => doneResp
    pollJobSets := fun _ _ => doneResp
    downloadRes := fun _ => .ok ()
    encodeOk := true }

/-- An effect environment where every step succeeds on the first try. -/
def envOk1 : GenEnv :=
  { submitRes := fun _ => .ok (.obj [("id", .str "job-1")])
    pollTasks := fun _ _ => doneResp
    pollJobSets := fun _ _ => doneResp
    downloadRes := fun _ => .ok ()
    encodeOk := true }

/-- A run of `generate_video` advanced past a failed submission requires a
well-formed prior submission result: success with a truthy job id. -/
def goodSubmit (env : GenEnv) (j : Nat) : Prop :=
  ∃ res jid, env.submitRes j = .ok res ∧ get_jid res = .ok jid ∧ truthy jid = true

/-- Appending to two strings whose first characters differ yields different
strings; used to keep the distinct error detail templates apart. -/
theorem append_head_ne (p q x y : String)
    (h : p.data.head? ≠ q.data.head?) (hp : p.data ≠ []) (hq : q.data ≠ []) :
    p ++ x ≠ q ++ y := by
  intro he
  have hd : p.data ++ x.data = q.data ++ y.data := by
    have := congrArg String.data he
    simpa [String.data_append] using this
  obtain ⟨a, l, hp2⟩ := List.exists_cons_of_ne_nil hp
  obtain ⟨b, m, hq2⟩ := List.exists_cons_of_ne_nil hq
  rw [hp2, hq2] at hd
  simp only [List.cons_append, List.cons.injEq] at hd
  rw [hp2, hq2] at h
  exact h (by simp [hd.1])

/-- A family whose ticks all sleep exhausts the whole fuel budget and times
out, performing one GET per unit of fuel. -/
theorem tryPollAux_allSleep (env : Nat → Resp)
    (h : ∀ i, pollTick (env i) = .sleepRetry) :
    ∀ (fuel i : Nat), tryPollAux env i fuel = (.raise pollTimeoutExc, fuel) := by
  intro fuel
  induction fuel with
  | zero => intro i; rfl
  | succ fuel ih =>
    intro i
    simp [tryPollAux, h i, ih (i + 1)]

/-- The GET count of `_try_poll` never exceeds the fuel budget. -/
theorem tryPollAux_count_le (env : Nat → Resp) :
    ∀ (fuel i : Nat), (tryPollAux env i fuel).2 ≤ fuel := by
  intro fuel
  induction fuel with
  | zero => intro i; simp [tryPollAux]
  | succ fuel ih =>
    intro i
    simp only [tryPollAux]
    cases pollTick (env i) <;> simp [Nat.succ_le_succ, ih (i + 1)]

/-- Skipping a prefix of sleeping ticks: if the first `m` ticks from index
`i` all sleep, the loop continues at index `i + m` with `m` less fuel,
having performed `m` more GETs. -/
theorem tryPollAux_skip (env : Nat → Resp) :
    ∀ (m i fuel : Nat), m ≤ fuel →
    (∀ j, j < m → pollTick (env (i + j)) = .sleepRetry) →
    tryPollAux env i fuel =
      ((tryPollAux env (i + m) (fuel - m)).1, (tryPollAux env (i + m) (fuel - m)).2 + m) := by
  intro m
  induction m with
  | zero => intro i fuel _ _; simp
  | succ m ih =>
    intro i fuel hm hsleep
    cases fuel with
    | zero => omega
    | succ fuel =>
      have h0 : pollTick (env i) = .sleepRetry := by
        have := hsleep 0 (Nat.succ_pos m)
        simpa using this
      have hrest : ∀ j, j < m → pollTick (env (i + 1 + j)) = .sleepRetry := by
        intro j hj
        have := hsleep (j + 1) (by omega)
        simpa [Nat.add_assoc, Nat.add_comm 1 j] using this
      have hrec := ih (i + 1) fuel (by omega) hrest
      simp only [tryPollAux, h0, hrec]
      have h1 : i + 1 + m = i + (m + 1) := by omega
      have h2 : fuel - m = fuel + 1 - (m + 1) := by omega
      rw [h1, h2, Nat.add_assoc]

/-- A submission loop whose every attempt succeeds with a usable id submits
each image exactly once, in order. -/
theorem submitLoop_ok (env : GenEnv) :
    ∀ (k i : Nat), (∀ j, j < k → goodSubmit env (i + j)) →
    submitLoop env i k = (.ok (), submitEvs i k) := by
  intro k
  induction k with
  | zero => intro i _; rfl
  | succ k ih =>
    intro i hgood
    obtain ⟨res, jid, hres, hjid, htr⟩ := hgood 0 (Nat.succ_pos k)
    rw [Nat.add_zero] at hres
    have hrest : ∀ j, j < k → goodSubmit env (i + 1 + j) := by
      intro j hj
      have := hgood (j + 1) (by omega)
      simpa [Nat.add_assoc, Nat.add_comm 1 j] using this
    simp [submitLoop, hres, hjid, htr, ih (i + 1) hrest, submitEvs]

/-- A failing submission aborts the loop: with the first `m` submissions
good and submission `i + m` failing, the loop stops with that error after
exactly `m + 1` submission attempts; no later image is submitted. -/
theorem submitLoop_fail (env : GenEnv) :
    ∀ (m k i : Nat) (e : HTTPException), m < k →
    (∀ j, j < m → goodSubmit env (i + j)) →
    env.submitRes (i + m) = .error e →
    submitLoop env i k = (.error (.httpe e), submitEvs i (m + 1)) := by
  intro m
  induction m with
  | zero =>
    intro k i e hk _ herr
    cases k with
    | zero => omega
    | succ k =>
      rw [Nat.add_zero] at herr
      simp [submitLoop, herr, submitEvs]
  | succ m ih =>
    intro k i e hk hgood herr
    cases k with
    | zero => omega
    | succ k =>
      obtain ⟨res, jid, hres, hjid, htr⟩ := hgood 0 (Nat.succ_pos m)
      rw [Nat.add_zero] at hres
      have hrest : ∀ j, j < m → goodSubmit env (i + 1 + j) := by
        intro j hj
        have := hgood (j + 1) (by omega)
        simpa [Nat.add_assoc, Nat.add_comm 1 j] using this
      have herr2 : env.submitRes (i + 1 + m) = .error e := by
        have h1 : i + 1 + m = i + (m + 1) := by omega
        rw [h1]; exact herr
      simp [submitLoop, hres, hjid, htr, ih k (i + 1) e (by omega) hrest herr2, submitEvs]

/-- The poll/download loop never emits submission events. -/
theorem pollLoop_filter_submit (env : GenEnv) :
    ∀ (k j : Nat), List.filter isSubmitEv (pollLoop env j k).2 = [] := by
  intro k
  induction k with
  | zero => intro j; rfl
  | succ k ih =>
    intro j
    simp only [pollLoop]
    cases hpoll : (poll_higgs_any (env.pollTasks j) (env.pollJobSets j)).1 with
    | ok u =>
      cases hdl : env.downloadRes j with
      | error e => simp [isSubmitEv]
      | ok v => simp [isSubmitEv, ih (j + 1)]
    | raise e => simp [isSubmitEv]
    | pyRaise e => simp [isSubmitEv]

/-- Submission events are exactly what the submission-event filter keeps. -/
theorem filter_submitEvs : ∀ (k i : Nat),
    List.filter isSubmitEv (submitEvs i k) = submitEvs i k := by
  intro k
  induction k with
  | zero => intro i; rfl
  | succ k ih => intro i; simp [submitEvs, isSubmitEv, ih (i + 1)]

/-- A successful `try` body always comes from the encoder branch: the
returned path is the freshly encoded `final.mp4` and the trace records the
encoder invocation on all `n` clips. -/
theorem tryBody_ok (env : GenEnv) (n : Nat) (p : String) (evs : List Ev)
    (h : tryBody env n = (.ok p, evs)) :
    p = "final.mp4" ∧ Ev.encode n ∈ evs := by
  unfold tryBody at h
  by_cases hn : n = 0
  · rw [if_pos hn] at h
    simp at h
  · rw [if_neg hn] at h
    rcases hs : submitLoop env 0 n with ⟨r1, evs1⟩
    rw [hs] at h
    cases r1 with
    | error e => simp at h
    | ok v =>
      rcases hp2 : pollLoop env 0 n with ⟨r2, evs2⟩
      rw [hp2] at h
      cases r2 with
      | error e => simp at h
      | ok w =>
        by_cases henc : env.encodeOk
        · simp only [if_pos henc] at h
          obtain ⟨h1, h2⟩ := Prod.mk.injEq _ _ _ _ ▸ h
          refine ⟨by simpa using h1.symm, ?_⟩
          rw [← h2]
          simp
        · simp [if_neg henc] at h

/-- C1 (counterexample): the source has no fallback ladder.  With two input
images and every submission failing, `generate_video` performs exactly one
submission attempt in total and aborts the whole request with that rung's
error — the second image is never even submitted — whereas the
advance-on-failure ladder described by the spec (here with a second rung
that succeeds) would recover and return the clip url. -/
theorem c1_counterexample :
    runGen (some "key") (some "secret") envC1fail 2 =
      (.httpError cSubmitErr, [.mkWorkdir, .submit 0, .cleanup, .respond]) ∧
    spec_ladder_resolve [.failure cSubmitErr, .success "http://x/v.mp4"] =
      .ok "http://x/v.mp4" :=
  ⟨by decide, rfl⟩

/-- C1 (amended): `generate_video` tries a single fixed configuration per
image — a one-rung ladder.  A failing submission for image `i` (after `i`
good ones) aborts the whole request with that error after exactly `i + 1`
submission attempts, with no further attempt for any image; and when all
submissions are good the trace contains exactly one submission event per
image, in order. -/
theorem c1_no_ladder (k s : Option String) (env : GenEnv) (n : Nat)
    (hk : pyTruthyOpt k = true) (hs : pyTruthyOpt s = true) :
    (∀ (i : Nat) (e : HTTPException), i < n →
      (∀ j, j < i → goodSubmit env j) → env.submitRes i = .error e →
      runGen k s env n =
        (.httpError e, .mkWorkdir :: (submitEvs 0 (i + 1) ++ [.cleanup, .respond]))) ∧
    ((∀ j, j < n → goodSubmit env j) →
      List.filter isSubmitEv (runGen k s env n).2 = submitEvs 0 n) := by
  have hcred : (pyTruthyOpt k && pyTruthyOpt s) = true := by rw [hk, hs]; rfl
  constructor
  · intro i e hin hgood herr
    have hfail := submitLoop_fail env i n 0 e hin
      (by intro j hj; simpa using hgood j hj) (by simpa using herr)
    have htb : tryBody env n = (.error (.httpe e), submitEvs 0 (i + 1)) := by
      unfold tryBody
      rw [if_neg (by omega), hfail]
    simp [runGen, hcred, htb]
  · intro hgood
    have htb2 : List.filter isSubmitEv (tryBody env n).2 = submitEvs 0 n := by
      by_cases hn : n = 0
      · subst hn
        simp [tryBody, submitEvs]
      · have hok := submitLoop_ok env n 0 (by intro j hj; simpa using hgood j hj)
        have hplf := pollLoop_filter_submit env n 0
        rcases hpl : pollLoop env 0 n with ⟨r2, evs2⟩
        rw [hpl] at hplf
        unfold tryBody
        rw [if_neg hn, hok, hpl]
        cases r2 with
        | error e =>
          simp [List.filter_append, filter_submitEvs, hplf]
        | ok v =>
          by_cases henc : env.encodeOk <;>
            simp [henc, List.filter_append, filter_submitEvs, hplf, isSubmitEv]
    rcases htb : tryBody env n with ⟨r1, evs1⟩
    rw [htb] at htb2
    unfold runGen
    rw [hcred]
    simp only [htb]
    cases r1 with
    | ok path => simpa [List.filter_append, isSubmitEv] using htb2
    | error ge =>
      cases ge with
      | httpe e => simpa [List.filter_append, isSubmitEv] using htb2
      | pyExn e => simpa [List.filter_append, isSubmitEv] using htb2

/-- C1 (witness): the failure-abort clause of `c1_no_ladder` at a concrete
environment where the first submission fails: one submission attempt, then
the error response. -/
theorem c1_no_ladder_witness :
    runGen (some "key") (some "secret") envC1fail 2 =
      (.httpError cSubmitErr, [.mkWorkdir, .submit 0, .cleanup, .respond]) := by
  have h := (c1_no_ladder (some "key") (some "secret") envC1fail 2 rfl rfl).1 0 cSubmitErr
    (by omega) (fun j hj => absurd hj (by omega)) rfl
  simpa [submitEvs] using h

/-- C2 (counterexample): the poller does not commit to a family after a
non-404 response.  With a tasks stream that answers 200/pending then 404,
the poller abandons the tasks family and probes the job-sets family (one
job-sets GET happens, refuting the committed-count-zero reading of the
claim). -/
theorem c2_counterexample :
    ¬ (∀ (envT envJ : Nat → Resp), pollTick (envT 0) = .sleepRetry →
        (poll_higgs_any envT envJ).2.2 = 0) := by
  intro hclaim
  have h := hclaim envT2 envJ2 (by decide)
  revert h
  decide

/-- C2 (amended): the poller probes the families in fixed priority order
(tasks before job-sets) and treats error codes tick by tick: after any
prefix of non-404 pending ticks on the tasks family, a 404 — even one
arriving after non-404 responses — abandons the tasks family and hands
over to the job-sets family, while any other raising tick (for example a
non-404 HTTP error) ends the whole poll with that hard error. -/
theorem c2_poll_families (envT envJ : Nat → Resp) (i : Nat) (hi : i < 240)
    (hpre : ∀ j, j < i → pollTick (envT j) = .sleepRetry) :
    (pollTick (envT i) = .notFound →
      poll_higgs_any envT envJ =
        (famToOutcome (tryPoll envJ).1, i + 1, (tryPoll envJ).2)) ∧
    (∀ e, pollTick (envT i) = .raise e →
      poll_higgs_any envT envJ = (.raise e, i + 1, 0)) := by
  have hskip := tryPollAux_skip envT i 0 240 (by omega)
    (by intro j hj; simpa using hpre j hj)
  rw [Nat.zero_add] at hskip
  rcases hfuel : 240 - i with _ | fuel
  · omega
  · rw [hfuel] at hskip
    constructor
    · intro h404
      have hstep : tryPollAux envT i (fuel + 1) = (.wrongFamily, 1) := by
        simp [tryPollAux, h404]
      have hT : tryPoll envT = (.wrongFamily, 1 + i) := by
        unfold tryPoll
        rw [hskip, hstep]
      rcases hJ : tryPoll envJ with ⟨rJ, nJ⟩
      simp [poll_higgs_any, hT, hJ, Nat.add_comm 1 i]
    · intro e herr
      have hstep : tryPollAux envT i (fuel + 1) = (.raise e, 1) := by
        simp [tryPollAux, herr]
      have hT : tryPoll envT = (.raise e, 1 + i) := by
        unfold tryPoll
        rw [hskip, hstep]
      simp [poll_higgs_any, hT, Nat.add_comm 1 i]

/-- C2 (witness): `c2_poll_families` at the concrete streams: the second
tasks tick is a 404 after a pending first tick, so polling completes on the
job-sets family with two tasks GETs and one job-sets GET. -/
theorem c2_poll_families_witness :
    poll_higgs_any envT2 envJ2 = (.ok "http://x/v.mp4", 2, 1) := by
  have h := (c2_poll_families envT2 envJ2 1 (by omega)
    (fun j hj => by
      have hj0 : j = 0 := by omega
      subst hj0
      decide)).1 (by decide)
  rw [h]
  decide

/-- C3 (counterexample): on an `outputs` list whose first entry is an image
url and whose second entry is the video (marked `type: video` and ending in
`.mp4`), `_find_any_video_url` returns the first, non-video url: the
`type` field and extension are never consulted. -/
theorem c3_counterexample :
    find_any_video_url c3data = some "http://x/a.jpg" ∧
    containsMp4 "http://x/a.jpg" = false ∧
    containsMp4 "http://x/b.mp4" = true :=
  ⟨by decide, by decide, by decide⟩

/-- C3 (amended): the `outputs` handler of the normalizer returns the url
of the first entry carrying a string `url`, whatever the `type` fields of
the entries say and whatever the urls end in. -/
theorem c3_first_url_wins (u1 u2 t1 t2 : String) :
    find_any_video_url (.obj [("outputs", .arr
      [.obj [("url", .str u1), ("type", .str t1)],
       .obj [("url", .str u2), ("type", .str t2)]])]) = some u1 := rfl

/-- C4 (counterexample): a jobs-list body with no top-level status whose
first (and only) job is in the recognized failure state `failed` produces a
plain sleep-and-retry tick, not a recognized failure: the poll keeps
waiting instead of surfacing the failure. -/
theorem c4_counterexample :
    pollTick ⟨200, c4data, ""⟩ = .sleepRetry ∧ "failed" ∈ failSet :=
  ⟨by decide, by decide⟩

/-- C4 (amended): when the top-level status is absent (empty) and a jobs
list is present, the poller recognizes only the all-jobs-completed success
case; any other combination of job statuses — in particular a failed first
job — yields no terminal state and the tick just sleeps and retries. -/
theorem c4_jobs_only_success (fs : List (String × Json)) (js : List Json)
    (sts : List String) (t : String)
    (hstatus : statusOf (.obj fs) = .ok "")
    (hjobs : getKey (.obj fs) "jobs" = some (.arr js))
    (hsts : jobStatusList js = .ok sts)
    (hnot : ¬(sts ≠ [] ∧ ∀ s ∈ sts, s ∈ jobsDoneSet)) :
    pollTick ⟨200, .obj fs, t⟩ = .sleepRetry := by
  have hshort : jobsShortcut (.obj fs) "" = .ok none := by
    unfold jobsShortcut
    rw [if_pos rfl, hjobs]
    simp [hsts, hnot]
  simp [pollTick, hstatus, hshort, successSet, failSet]

/-- C4 (witness): `c4_jobs_only_success` at the concrete failed-job body. -/
theorem c4_jobs_only_success_witness :
    pollTick ⟨200, .obj [("jobs", .arr [.obj [("status", .str "failed")]])], "diag"⟩ =
      .sleepRetry :=
  c4_jobs_only_success [("jobs", .arr [.obj [("status", .str "failed")]])]
    [.obj [("status", .str "failed")]] ["failed"] "diag" rfl rfl rfl (by decide)

/-- C5: polling is bounded.  The GET count of `_poll_higgs_any` never
exceeds 240 per endpoint family, and a handle whose tasks-family responses
never reach a terminal state (every tick sleeps) makes the poller raise the
504 poll-timeout error after exactly 240 poll attempts. -/
theorem c5_poll_timeout_bound (envT envJ : Nat → Resp) :
    ((poll_higgs_any envT envJ).2.1 ≤ 240 ∧ (poll_higgs_any envT envJ).2.2 ≤ 240) ∧
    ((∀ i, pollTick (envT i) = .sleepRetry) →
      poll_higgs_any envT envJ = (.raise pollTimeoutExc, 240, 0)) := by
  constructor
  · have hleT : (tryPoll envT).2 ≤ 240 := tryPollAux_count_le envT 240 0
    have hleJ : (tryPoll envJ).2 ≤ 240 := tryPollAux_count_le envJ 240 0
    rcases hT : tryPoll envT with ⟨rT, nT⟩
    rw [hT] at hleT
    cases rT with
    | wrongFamily =>
      rcases hJ : tryPoll envJ with ⟨rJ, nJ⟩
      rw [hJ] at hleJ
      simp [poll_higgs_any, hT, hJ, hleT, hleJ]
    | ok u => simp [poll_higgs_any, hT, hleT]
    | raise e => simp [poll_higgs_any, hT, hleT]
    | pyRaise e => simp [poll_higgs_any, hT, hleT]
  · intro hsleep
    have h := tryPollAux_allSleep envT hsleep 240 0
    simp [poll_higgs_any, tryPoll, h]

/-- C5 (witness): `c5_poll_timeout_bound` on the forever-pending stream:
timeout after exactly 240 GETs, none on the second family. -/
theorem c5_poll_timeout_bound_witness :
    poll_higgs_any envPend envPend = (.raise pollTimeoutExc, 240, 0) :=
  (c5_poll_timeout_bound envPend envPend).2 (fun _ => rfl)

/-- C6: a poll tick whose status is a recognized success term but whose
body yields no non-empty result url raises the ready-but-url-missing
`HTTPException`, and that surfaced error is distinct from the poll-timeout
error (different status code) and from every provider-failure error
(different detail template). -/
theorem c6_missing_url_distinct (fs : List (String × Json)) (status t : String)
    (hstatus : statusOf (.obj fs) = .ok status)
    (hsucc : status ∈ successSet)
    (hurl : (find_any_video_url (.obj fs)).getD "" = "") :
    pollTick ⟨200, .obj fs, t⟩ = .raise (readyButUrlMissingExc (.obj fs)) ∧
    readyButUrlMissingExc (.obj fs) ≠ pollTimeoutExc ∧
    ∀ d : Json, readyButUrlMissingExc (.obj fs) ≠ generationFailedExc d := by
  have hne : status ≠ "" := by
    intro h0
    subst h0
    simp [successSet] at hsucc
  have hshort : jobsShortcut (.obj fs) status = .ok none := by
    simp [jobsShortcut, hne]
  have hcheck : successCheck (.obj fs) = .raise (readyButUrlMissingExc (.obj fs)) := by
    unfold successCheck
    rcases hfind : find_any_video_url (.obj fs) with _ | u
    · rfl
    · rw [hfind] at hurl
      simp only [Option.getD_some] at hurl
      simp [hurl]
  refine ⟨?_, ?_, ?_⟩
  · simp [pollTick, hstatus, hshort, hsucc, hcheck]
  · intro h
    simp [readyButUrlMissingExc, pollTimeoutExc] at h
  · intro d h
    have hd : ("Task ready but video url missing: " ++ renderJson (.obj fs)) =
        ("Generation failed: " ++ renderJson d) := congrArg HTTPException.detail h
    exact append_head_ne "Task ready but video url missing: " "Generation failed: "
      (renderJson (.obj fs)) (renderJson d) (by decide) (by decide) (by decide) hd

/-- C6 (witness): `c6_missing_url_distinct` at a body that says `succeeded`
but contains no url anywhere. -/
theorem c6_missing_url_distinct_witness :
    pollTick ⟨200, .obj c6fields, ""⟩ = .raise (readyButUrlMissingExc (.obj c6fields)) ∧
    readyButUrlMissingExc (.obj c6fields) ≠ pollTimeoutExc ∧
    readyButUrlMissingExc (.obj c6fields) ≠ generationFailedExc (.obj c6fields) := by
  have h := c6_missing_url_distinct c6fields "succeeded" "" rfl (by decide) rfl
  exact ⟨h.1, h.2.1, h.2.2 (.obj c6fields)⟩

/-- C7 (counterexample): a fully successful run with exactly one image
still invokes the media encoder on the single clip and returns the freshly
encoded `final.mp4`, not the downloaded clip verbatim: the trace contains
the `encode 1` event. -/
theorem c7_counterexample :
    runGen (some "k") (some "s") envOk1 1 =
      (.fileResponse "final.mp4",
       [.mkWorkdir, .submit 0, .poll 0, .download 0, .encode 1, .respond, .cleanup]) ∧
    Ev.encode 1 ∈ (runGen (some "k") (some "s") envOk1 1).2 :=
  ⟨by decide, by decide⟩

/-- C7 (amended): every successful response of `generate_video` — for any
number of images, including exactly one — returns the encoder output
`final.mp4`, and its trace records the `_concat_videos_mp4` invocation on
all `n` clips; the single-image case is not special-cased. -/
theorem c7_always_encodes (k s : Option String) (env : GenEnv) (n : Nat)
    (p : String) (tr : List Ev)
    (h : runGen k s env n = (.fileResponse p, tr)) :
    p = "final.mp4" ∧ Ev.encode n ∈ tr := by
  unfold runGen at h
  by_cases hc : (pyTruthyOpt k && pyTruthyOpt s) = true
  · rw [if_pos hc] at h
    rcases htb : tryBody env n with ⟨r1, evs⟩
    rw [htb] at h
    cases r1 with
    | ok path =>
      simp only [Prod.mk.injEq, Response.fileResponse.injEq] at h
      obtain ⟨h1, h2⟩ := h
      obtain ⟨hfin, hmem⟩ := tryBody_ok env n path evs htb
      subst h1
      refine ⟨hfin, ?_⟩
      rw [← h2]
      simp [hmem]
    | error ge =>
      cases ge with
      | httpe e => simp at h
      | pyExn e => simp at h
  · rw [if_neg hc] at h
    simp at h

/-- C7 (witness): the amended theorem at the concrete one-image success
environment. -/
theorem c7_always_encodes_witness :
    ("final.mp4" : String) = "final.mp4" ∧
    Ev.encode 1 ∈ [Ev.mkWorkdir, Ev.submit 0, Ev.poll 0, Ev.download 0,
      Ev.encode 1, Ev.respond, Ev.cleanup] :=
  c7_always_encodes (some "k") (some "s") envOk1 1 "final.mp4"
    [Ev.mkWorkdir, Ev.submit 0, Ev.poll 0, Ev.download 0,
      Ev.encode 1, Ev.respond, Ev.cleanup] (by decide)

/-- C8: with either credential missing (or empty), `generate_video` fails
immediately with the 500 configuration error; the trace contains no
submission, poll or download event — zero outbound HTTP calls — and no
workspace is even created. -/
theorem c8_missing_creds (k s : Option String) (env : GenEnv) (n : Nat)
    (h : ¬(pyTruthyOpt k = true ∧ pyTruthyOpt s = true)) :
    runGen k s env n = (.httpError missingEnvExc, [.respond]) ∧
    List.filter isNetworkEv (runGen k s env n).2 = [] := by
  have hc : (pyTruthyOpt k && pyTruthyOpt s) = false := by
    cases hk : pyTruthyOpt k <;> cases hs : pyTruthyOpt s <;> simp_all
  have h1 : runGen k s env n = (.httpError missingEnvExc, [.respond]) := by
    unfold runGen
    rw [hc]
    rfl
  refine ⟨h1, ?_⟩
  rw [h1]
  rfl

/-- C8 (witness): `c8_missing_creds` with the api key unset. -/
theorem c8_missing_creds_witness :
    runGen none (some "secret") envOk1 3 = (.httpError missingEnvExc, [.respond]) :=
  (c8_missing_creds none (some "secret") envOk1 3 (by decide)).1

/-- C9: whenever the scratch workspace is created, it is removed on every
exit path of `generate_video`: the trace always contains the cleanup
event; a successful file response is followed by the (background) cleanup,
and every error response is preceded by the cleanup. -/
theorem c9_cleanup_all_paths (k s : Option String) (env : GenEnv) (n : Nat)
    (resp : Response) (tr : List Ev)
    (h : runGen k s env n = (resp, tr)) (hw : Ev.mkWorkdir ∈ tr) :
    Ev.cleanup ∈ tr ∧
    (∀ p, resp = .fileResponse p → ∃ pre, tr = pre ++ [Ev.respond, Ev.cleanup]) ∧
    ((∀ p, resp ≠ .fileResponse p) → ∃ pre, tr = pre ++ [Ev.cleanup, Ev.respond]) := by
  unfold runGen at h
  by_cases hc : (pyTruthyOpt k && pyTruthyOpt s) = true
  · rw [if_pos hc] at h
    rcases htb : tryBody env n with ⟨r1, evs⟩
    rw [htb] at h
    cases r1 with
    | ok path =>
      obtain ⟨h1, h2⟩ := Prod.mk.injEq _ _ _ _ ▸ h
      subst h1
      refine ⟨by rw [← h2]; simp, ?_, ?_⟩
      · intro p _
        exact ⟨Ev.mkWorkdir :: evs, by rw [← h2]⟩
      · intro hnot
        exact absurd rfl (hnot path)
    | error ge =>
      cases ge with
      | httpe e =>
        obtain ⟨h1, h2⟩ := Prod.mk.injEq _ _ _ _ ▸ h
        subst h1
        refine ⟨by rw [← h2]; simp, ?_, ?_⟩
        · intro p hp
          exact absurd hp (by simp)
        · intro _
          exact ⟨Ev.mkWorkdir :: evs, by rw [← h2]⟩
      | pyExn e =>
        obtain ⟨h1, h2⟩ := Prod.mk.injEq _ _ _ _ ▸ h
        subst h1
        refine ⟨by rw [← h2]; simp, ?_, ?_⟩
        · intro p hp
          exact absurd hp (by simp)
        · intro _
          exact ⟨Ev.mkWorkdir :: evs, by rw [← h2]⟩
  · rw [if_neg hc] at h
    obtain ⟨h1, h2⟩ := Prod.mk.injEq _ _ _ _ ▸ h
    rw [← h2] at hw
    simp at hw

/-- C9 (witness): `c9_cleanup_all_paths` at the concrete one-image success
run: the cleanup event is present in its trace. -/
theorem c9_cleanup_all_paths_witness :
    Ev.cleanup ∈ [Ev.mkWorkdir, Ev.submit 0, Ev.poll 0, Ev.download 0,
      Ev.encode 1, Ev.respond, Ev.cleanup] :=
  (c9_cleanup_all_paths (some "k") (some "s") envOk1 1 (.fileResponse "final.mp4")
    [Ev.mkWorkdir, Ev.submit 0, Ev.poll 0, Ev.download 0,
      Ev.encode 1, Ev.respond, Ev.cleanup] (by decide) (by decide)).1

/-- C10: `_normalize_params` silently coerces instead of rejecting: a
duration outside the set of 6 and 10 becomes 6 and a resolution outside
512, 768, 1080 becomes 768, allowed values pass through unchanged, and the
submit payload carries exactly the coerced values — so invalid parameters
never produce an error. -/
theorem c10_param_coercion (dur : Int) (res : String) (p u : String) :
    (¬(dur = 6 ∨ dur = 10) → (normalize_params dur res).1 = 6) ∧
    ((dur = 6 ∨ dur = 10) → (normalize_params dur res).1 = dur) ∧
    (¬(res = "512" ∨ res = "768" ∨ res = "1080") → (normalize_params dur res).2 = "768") ∧
    ((res = "512" ∨ res = "768" ∨ res = "1080") → (normalize_params dur res).2 = res) ∧
    getKey (getD (submit_payload p dur res u) "params") "duration" =
      some (.num (normalize_params dur res).1) ∧
    getKey (getD (submit_payload p dur res u) "params") "resolution" =
      some (.str (normalize_params dur res).2) := by
  refine ⟨?_, ?_, ?_, ?_, ?_, ?_⟩
  · intro h
    show (if dur = 6 ∨ dur = 10 then dur else 6) = 6
    rw [if_neg h]
  · intro h
    show (if dur = 6 ∨ dur = 10 then dur else 6) = dur
    rw [if_pos h]
  · intro h
    show (if res = "512" ∨ res = "768" ∨ res = "1080" then res else "768") = "768"
    rw [if_neg h]
  · intro h
    show (if res = "512" ∨ res = "768" ∨ res = "1080" then res else "768") = res
    rw [if_pos h]
  · rfl
  · rfl

/-- C10 (witness): `c10_param_coercion` at the invalid pair 7 and "999":
both are coerced to the defaults. -/
theorem c10_param_coercion_witness :
    (normalize_params 7 "999").1 = 6 ∧ (normalize_params 7 "999").2 = "768" := by
  have h := c10_param_coercion 7 "999" "walk forward" "http://x/i.jpg"
  exact ⟨h.1 (by decide), h.2.2.1 (by decide)⟩
